import Mathlib

/-!
# tomviz `DataPropertiesPanel`: embedding and properties

Shallow embedding of `src/tomviz/DataPropertiesPanel.cxx`.  The panel is a
record of its member variables and of the widgets it drives; every slot of the
class is a function on a `World`, which holds the panel together with the
objects the slots reach through pointers (data sources, signal connections,
pipeline sources, the active-object registry).

`double` values are kept abstract: the type `R` and the conversions and
arithmetic the file uses on it are the fields of a `Toolkit`, so every theorem
holds for whatever the C++ library computes.  `int` arithmetic wraps at 32 bits.
-/

namespace Tomviz

/-! ## Integers and arrays -/

/-- Wrap a mathematical integer into the range of a 32-bit `int`. -/
def wrapInt (n : Int) : Int :=
  (n + 2147483648) % 4294967296 - 2147483648

/-- Three components, one per axis (`double spacing[3]`, the per-axis units). -/
structure Vec3 (α : Type) where
  x : α
  y : α
  z : α
deriving DecidableEq

/-- Read component `i` of a three-component array. -/
def Vec3.get {α : Type} (v : Vec3 α) (i : Fin 3) : α :=
  match i with
  | 0 => v.x
  | 1 => v.y
  | 2 => v.z

/-- Write component `i` of a three-component array. -/
def Vec3.set {α : Type} (v : Vec3 α) (i : Fin 3) (a : α) : Vec3 α :=
  match i with
  | 0 => { v with x := a }
  | 1 => { v with y := a }
  | 2 => { v with z := a }

/-- The six `int`s of `int extent[6]`: minimum and maximum index per axis. -/
structure Extent where
  e0 : Int
  e1 : Int
  e2 : Int
  e3 : Int
  e4 : Int
  e5 : Int
deriving DecidableEq

/-- Read `extent[i]`. -/
def Extent.get (e : Extent) (i : Nat) : Int :=
  match i with
  | 0 => e.e0
  | 1 => e.e1
  | 2 => e.e2
  | 3 => e.e3
  | 4 => e.e4
  | 5 => e.e5
  | _ => 0

/-- The `int` expression `extent[2 * axis + 1] - extent[2 * axis] + 1`. -/
def axisCount (e : Extent) (axis : Fin 3) : Int :=
  wrapInt (wrapInt (e.get (2 * axis.val + 1) - e.get (2 * axis.val)) + 1)

/-! ## Data sources and operators -/

/-- Modelled from the spec: `DataSource::DataSourceType` (DataSource.h is not
among the sources); the panel only distinguishes tilt series from the rest. -/
inductive DataSourceType where
  | TiltSeries
  | Other
deriving DecidableEq

/-- Modelled from the spec: an entry of a data source's operator history
(Operator.h and SetTiltAnglesOperator.h are not among the sources).  A
`SetTiltAnglesOperator` holds an angle array; of any other operator the
panel sees nothing, so it only carries a label. -/
inductive Operator (R : Type) where
  | setTiltAngles (tiltAngles : List R)
  | other (label : String)
deriving DecidableEq

/-- The cast `qobject_cast<SetTiltAnglesOperator*>(op)`: the operator's angle
array when it is a tilt-angle operator, `none` (a null pointer) otherwise. -/
def Operator.asSetTiltAngles {R : Type} : Operator R → Option (List R)
  | .setTiltAngles a => some a
  | .other _ => none

/-- Modelled from the spec: the fields of a `DataSource` that the panel reads
and writes (DataSource.h is not among the sources): extent, spacing, units per
axis, kind, tilt angles and the ordered operator history. -/
structure DataSource (R : Type) where
  extent : Extent
  spacing : Vec3 R
  units : Vec3 String
  type : DataSourceType
  tiltAngles : List R
  operators : List (Operator R)

/-- Modelled from the spec: `DataSource::setUnits(text)` ("sets its units
string"): every axis gets the same units text. -/
def DataSource.setUnits {R : Type} (ds : DataSource R) (text : String) : DataSource R :=
  { ds with units := ⟨text, text, text⟩ }

/-- Modelled from the spec: `DataSource::getUnits(axis)`, the units of one axis. -/
def DataSource.getUnits {R : Type} (ds : DataSource R) (axis : Fin 3) : String :=
  ds.units.get axis

/-- Modelled from the spec: `DataSource::setSpacing(spacing)` stores the three
components it is given. -/
def DataSource.setSpacing {R : Type} (ds : DataSource R) (s : Vec3 R) : DataSource R :=
  { ds with spacing := s }

/-- Modelled from the spec: `DataSource::addOperator(op)` appends to the
operator history. -/
def DataSource.addOperator {R : Type} (ds : DataSource R) (op : Operator R) : DataSource R :=
  { ds with operators := ds.operators ++ [op] }

/-! ## Library operations used by the panel -/

/-- Toolkit collects the operations on `double` and on Qt strings that the
panel calls and that are neither defined in the file nor fixed by it.
`newTiltAngles` and `writeOutside` describe `SetTiltAnglesOperator`, whose
header is not among the sources: the array that an operator just constructed
and given the data source as parent reports, and what `tiltAngles[row] = value`
yields for a row outside the array. -/
structure Toolkit (R : Type) where
  /-- `QString::toDouble(&ok)` and `QVariant::toDouble(&ok)`: `none` when `ok` is false. -/
  toDouble : String → Option R
  /-- `QString::number(double)`. -/
  number : R → String
  /-- `QString("%1").arg(double)`. -/
  arg : R → String
  /-- The conversion of an `int` operand to `double`. -/
  ofInt : Int → R
  /-- Multiplication of two `double`s. -/
  mul : R → R → R
  /-- Division of two `double`s. -/
  div : R → R → R
  /-- The angle array `op->tiltAngles()` of `op = new SetTiltAnglesOperator` after
  `op->setParent(dsource)`. -/
  newTiltAngles : DataSource R → List R
  /-- The result of `tiltAngles[row] = value` when `row` is not within the array. -/
  writeOutside : List R → Nat → R → List R

/-- The statement `tiltAngles[row] = value` on an operator's angle array:
inside the array position `row` is replaced, outside it the toolkit decides. -/
def assignAngle {R : Type} (kit : Toolkit R) (angles : List R) (row : Nat) (value : R) : List R :=
  if row < angles.length then angles.set row value else kit.writeOutside angles row value

/-! ## Signals and slots -/

/-- The objects that send or receive the signals the panel wires up. -/
inductive Obj where
  | panel
  | dataSource (id : Nat)
  | tiltAnglesTable
  | activeObjects
  | pqActiveObjects
  | setTiltAnglesButton
  | unitBox
  | xLengthBox
  | yLengthBox
  | zLengthBox
  | originalInformationWidget
  | transformedInformationWidget
deriving DecidableEq

/-- Signals named in the file. -/
inductive Signal where
  | dataChanged
  | dataPropertiesChanged
  | cellChanged
  | dataSourceChanged
  | viewChanged
  | portChanged
  | clicked
  | editingFinished
deriving DecidableEq

/-- Slots named in the file. -/
inductive Slot where
  | setDataSource
  | updateAxesGridLabels
  | setTiltAngles
  | updateUnits
  | updateXLength
  | updateYLength
  | updateZLength
  | scheduleUpdate
  | onTiltAnglesModified
  | setOutputPort
deriving DecidableEq

/-- One signal-slot connection. -/
structure Connection where
  sender : Obj
  signal : Signal
  receiver : Obj
  slot : Slot
deriving DecidableEq

/-- Whether an optional pattern (a null argument of `disconnect` is a
wildcard) admits a value. -/
def admits {α : Type} [DecidableEq α] (pattern : Option α) (a : α) : Bool :=
  match pattern with
  | none => true
  | some p => decide (p = a)

/-- The call `QObject::connect` with the default connection type: adds a
connection, also when an equal one exists. -/
def qtConnect (c : Connection) (cs : List Connection) : List Connection :=
  cs ++ [c]

/-- The call `QObject::connect` with `Qt::UniqueConnection`: adds the
connection unless an equal one exists. -/
def qtConnectUnique (c : Connection) (cs : List Connection) : List Connection :=
  if c ∈ cs then cs else cs ++ [c]

/-- The call `QObject::disconnect(sender, signal, receiver, method)`: removes
every connection of `sender` that the three patterns admit. -/
def qtDisconnect (sender : Obj) (signal : Option Signal) (receiver : Option Obj)
    (slot : Option Slot) (cs : List Connection) : List Connection :=
  cs.filter (fun c =>
    !(decide (c.sender = sender) && admits signal c.signal
      && admits receiver c.receiver && admits slot c.slot))

/-- How many times a connection is present. -/
def connectionCount (c : Connection) (cs : List Connection) : Nat :=
  cs.count c

/-! ## Widgets -/

/-- The part of a `QTableWidget` the panel uses: its dimensions and the display
text of its items (`none` where the cell has no item). -/
structure TableWidget where
  rowCount : Nat
  columnCount : Nat
  items : Nat → Nat → Option String

/-- The call `QTableWidget::item(row, column)`. -/
def TableWidget.item (t : TableWidget) (row column : Nat) : Option String :=
  if row < t.rowCount ∧ column < t.columnCount then t.items row column else none

/-- The call `QTableWidget::clear()`: removes all items, keeps the dimensions. -/
def TableWidget.clear (t : TableWidget) : TableWidget :=
  { t with items := fun _ _ => none }

/-- The call `QTableWidget::setRowCount(n)`. -/
def TableWidget.setRowCount (t : TableWidget) (n : Nat) : TableWidget :=
  { t with rowCount := n, items := fun r c => if r < n then t.items r c else none }

/-- The call `QTableWidget::setColumnCount(n)`. -/
def TableWidget.setColumnCount (t : TableWidget) (n : Nat) : TableWidget :=
  { t with columnCount := n, items := fun r c => if c < n then t.items r c else none }

/-- The call `QTableWidget::setItem(row, column, item)` with an item whose
display text is `text`; a cell outside the table is ignored. -/
def TableWidget.setItem (t : TableWidget) (row column : Nat) (text : String) : TableWidget :=
  if row < t.rowCount ∧ column < t.columnCount then
    { t with items := fun r c => if r = row ∧ c = column then some text else t.items r c }
  else t

/-- Which proxy of a data source a temporary `pqPipelineSource` wraps. -/
inductive ProxyKind where
  | originalDataSource
  | producer
deriving DecidableEq

/-- A temporary `pqPipelineSource` created by `setDataSource`. -/
structure PipelineSource where
  dataSource : Nat
  proxy : ProxyKind
deriving DecidableEq

/-- The axes-grid proxy of a view: its three titles and how often
`UpdateVTKObjects` pushed them. -/
structure AxesGrid where
  xTitle : String
  yTitle : String
  zTitle : String
  pushes : Nat
deriving DecidableEq

/-- The active view: its axes-grid proxy (null when the helper finds none),
whether a `pqView` exists for it, and how often it was rendered. -/
structure View where
  axesGrid : Option AxesGrid
  hasQtView : Bool
  renders : Nat
deriving DecidableEq

/-- The member variables of the panel and the state of its widgets. -/
structure Panel where
  m_currentDataSource : Option Nat
  m_updateNeeded : Bool
  visible : Bool
  xLengthBox : String
  yLengthBox : String
  zLengthBox : String
  unitBox : String
  tiltAnglesSeparatorShown : Bool
  setTiltAnglesButtonShown : Bool
  tiltAnglesTableShown : Bool
  tiltAnglesTable : TableWidget
  originalPort : Option Nat
  transformedPort : Option Nat

/-- The panel with everything its slots reach: the data sources (by address),
the signal connections, the pipeline sources created so far (a port is the
index of its pipeline source), those handed to `deleteLater`, the
active-object registry, the emitted `dataPropertiesChanged` signals and the
diagnostics written. -/
structure World (R : Type) where
  panel : Panel
  sources : Nat → DataSource R
  connections : List Connection
  pipelineSources : List PipelineSource
  deleted : List Nat
  activeView : Option View
  activeDataSource : Option Nat
  emitted : List (Nat × Signal)
  diagnostics : List String

/-! ## The slots of `DataPropertiesPanel` -/

section Slots

variable {R : Type}

/-- The connection of the table's `cellChanged` signal to the panel's
`onTiltAnglesModified` slot. -/
def cellEditConnection : Connection :=
  ⟨Obj.tiltAnglesTable, Signal.cellChanged, Obj.panel, Slot.onTiltAnglesModified⟩

/-- The connection of a data source's `dataChanged` signal to the panel's
`scheduleUpdate` slot. -/
def dataChangedConnection (d : Nat) : Connection :=
  ⟨Obj.dataSource d, Signal.dataChanged, Obj.panel, Slot.scheduleUpdate⟩

/-- Method `DataPropertiesPanel::clear`: hides the tilt widgets and empties the
table.  (`m_colorMapWidget` is never set in the file and is left out.) -/
def clear (w : World R) : World R :=
  { w with panel := { w.panel with
      tiltAnglesSeparatorShown := false
      setTiltAnglesButtonShown := false
      tiltAnglesTable := (w.panel.tiltAnglesTable.clear).setRowCount 0
      tiltAnglesTableShown := false } }

/-- The loop of `updateData` that fills the table: row `i` gets a new item whose
display text is `QString::number(tiltAngles[i])`; `i` is the index of the head
of the remaining angles. -/
def fillRows (kit : Toolkit R) : List R → Nat → TableWidget → TableWidget
  | [], _, t => t
  | a :: rest, i, t => fillRows kit rest (i + 1) (t.setItem i 0 (kit.number a))

/-- Method `DataPropertiesPanel::updateData`.  The table calls between the
`disconnect` and the `connect` are plain updates of the table: in between no
connection of `cellChanged` to the handler exists (`count_after_disconnect`), so
the signals the table sends while it is refilled reach no slot. -/
def updateData (kit : Toolkit R) (w : World R) : World R :=
  if !w.panel.m_updateNeeded then w
  else
    let conns :=
      qtDisconnect Obj.tiltAnglesTable (some Signal.cellChanged) (some Obj.panel)
        (some Slot.onTiltAnglesModified) w.connections
    let w1 : World R := { w with connections := conns }
    let w2 := clear w1
    match w2.panel.m_currentDataSource with
    | none => w2
    | some d =>
      let dsource := w2.sources d
      let extent := dsource.extent
      let spacing := dsource.spacing
      let p1 : Panel :=
        { w2.panel with
            xLengthBox := kit.arg (kit.mul (spacing.get 0) (kit.ofInt (axisCount extent 0)))
            yLengthBox := kit.arg (kit.mul (spacing.get 1) (kit.ofInt (axisCount extent 1)))
            zLengthBox := kit.arg (kit.mul (spacing.get 2) (kit.ofInt (axisCount extent 2)))
            unitBox := dsource.getUnits 0 }
      let p2 : Panel :=
        if dsource.type = DataSourceType.TiltSeries then
          let tiltAngles := dsource.tiltAngles
          let table := (p1.tiltAnglesTable.setRowCount tiltAngles.length).setColumnCount 1
          { p1 with
              tiltAnglesSeparatorShown := true
              setTiltAnglesButtonShown := true
              tiltAnglesTableShown := true
              tiltAnglesTable := fillRows kit tiltAngles 0 table }
        else
          { p1 with
              tiltAnglesSeparatorShown := false
              setTiltAnglesButtonShown := false
              tiltAnglesTableShown := false }
      { w2 with
          panel := { p2 with m_updateNeeded := false }
          connections := qtConnect cellEditConnection w2.connections }

/-- Method `DataPropertiesPanel::scheduleUpdate`. -/
def scheduleUpdate (kit : Toolkit R) (w : World R) : World R :=
  let w1 : World R := { w with panel := { w.panel with m_updateNeeded := true } }
  if w1.panel.visible then updateData kit w1 else w1

/-- The step of `setDataSource` that hands the pipeline source behind a
widget's output port to `deleteLater`, when the widget has a port. -/
def releasePort (port : Option Nat) (deleted : List Nat) : List Nat :=
  match port with
  | some a => deleted ++ [a]
  | none => deleted

/-- Method `DataPropertiesPanel::setDataSource`.  The one-argument
`disconnect(m_currentDataSource)` is the member function
`QObject::disconnect(const QObject* receiver, const char* method = nullptr)`,
that is `disconnect(this, nullptr, receiver, method)`: it removes the
connections from the panel's signals to the data source. -/
def setDataSource (kit : Toolkit R) (dsource : Option Nat) (w : World R) : World R :=
  let conns1 :=
    match w.panel.m_currentDataSource with
    | some d => qtDisconnect Obj.panel none (some (Obj.dataSource d)) none w.connections
    | none => w.connections
  let deleted1 := releasePort w.panel.originalPort w.deleted
  let deleted2 := releasePort w.panel.transformedPort deleted1
  let w1 : World R :=
    { w with
        connections := conns1
        deleted := deleted2
        panel := { w.panel with originalPort := none, m_currentDataSource := dsource } }
  let w2 : World R :=
    match dsource with
    | some d =>
      let n := w1.pipelineSources.length
      { w1 with
          connections := qtConnectUnique (dataChangedConnection d) w1.connections
          pipelineSources := w1.pipelineSources ++ [⟨d, .originalDataSource⟩, ⟨d, .producer⟩]
          panel := { w1.panel with originalPort := some n, transformedPort := some (n + 1) } }
    | none => w1
  scheduleUpdate kit w2

/-- The operator `onTiltAnglesModified` finds for reuse: when the history is not
empty, its last entry cast to `SetTiltAnglesOperator`; the angle array of that
operator, or `none` for a null pointer. -/
def reusableOperator (operators : List (Operator R)) : Option (List R) :=
  if operators.length > 0 then operators.getLast?.bind Operator.asSetTiltAngles else none

/-- Method `DataPropertiesPanel::onTiltAnglesModified`.  The result is `none`
where the C++ has no defined outcome: a null `m_currentDataSource`, a failed
`Q_ASSERT`, or a cell without an item. -/
def onTiltAnglesModified (kit : Toolkit R) (row column : Nat) (w : World R) :
    Option (World R) :=
  match w.panel.m_currentDataSource with
  | none => none
  | some d =>
    let dsource := w.sources d
    if dsource.type ≠ DataSourceType.TiltSeries then none
    else
      match w.panel.tiltAnglesTable.item row column with
      | none => none
      | some text =>
        match kit.toDouble text with
        | some value =>
          match reusableOperator dsource.operators with
          | some angles =>
            let tiltAngles := assignAngle kit angles row value
            let ops := dsource.operators.dropLast ++ [Operator.setTiltAngles tiltAngles]
            some { w with sources := Function.update w.sources d { dsource with operators := ops } }
          | none =>
            let tiltAngles := assignAngle kit (kit.newTiltAngles dsource) row value
            let op1 := Operator.setTiltAngles tiltAngles
            some { w with sources := Function.update w.sources d (dsource.addOperator op1) }
        | none => some { w with diagnostics := w.diagnostics ++ ["Invalid tilt angle."] }

/-- Method `DataPropertiesPanel::updateAxesGridLabels`. -/
def updateAxesGridLabels (w : World R) : World R :=
  match w.activeView with
  | none => w
  | some view =>
    match view.axesGrid, w.activeDataSource with
    | some axesGrid, some d =>
      let ds := w.sources d
      let xTitle := "X (" ++ ds.getUnits 0 ++ ")"
      let yTitle := "Y (" ++ ds.getUnits 1 ++ ")"
      let zTitle := "Z (" ++ ds.getUnits 2 ++ ")"
      let grid : AxesGrid :=
        { xTitle := xTitle, yTitle := yTitle, zTitle := zTitle, pushes := axesGrid.pushes + 1 }
      let renders := if view.hasQtView then view.renders + 1 else view.renders
      { w with activeView := some { view with axesGrid := some grid, renders := renders } }
    | _, _ => w

/-- Method `DataPropertiesPanel::updateUnits`. -/
def updateUnits (w : World R) : World R :=
  match w.panel.m_currentDataSource with
  | some d =>
    let text := w.panel.unitBox
    let w1 : World R :=
      { w with sources := Function.update w.sources d ((w.sources d).setUnits text) }
    updateAxesGridLabels w1
  | none => w

/-- Method `DataPropertiesPanel::updateSpacing`. -/
def updateSpacing (kit : Toolkit R) (axis : Fin 3) (newLength : R) (w : World R) : World R :=
  match w.panel.m_currentDataSource with
  | none => w
  | some d =>
    let extent := (w.sources d).extent
    let spacing := (w.sources d).spacing
    let spacing1 := spacing.set axis (kit.div newLength (kit.ofInt (axisCount extent axis)))
    { w with sources := Function.update w.sources d ((w.sources d).setSpacing spacing1) }

/-- The statement `emit dsource->dataPropertiesChanged()`, guarded by the null
test on `m_currentDataSource` that precedes it. -/
def emitDataPropertiesChanged (w : World R) : World R :=
  match w.panel.m_currentDataSource with
  | none => w
  | some d => { w with emitted := w.emitted ++ [(d, Signal.dataPropertiesChanged)] }

/-- Method `DataPropertiesPanel::updateXLength`. -/
def updateXLength (kit : Toolkit R) (w : World R) : World R :=
  let text := w.panel.xLengthBox
  match kit.toDouble text with
  | none => { w with diagnostics := w.diagnostics ++ ["Failed to parse X Length string"] }
  | some newLength =>
    emitDataPropertiesChanged (updateData kit (updateSpacing kit 0 newLength w))

/-- Method `DataPropertiesPanel::updateYLength`. -/
def updateYLength (kit : Toolkit R) (w : World R) : World R :=
  let text := w.panel.yLengthBox
  match kit.toDouble text with
  | none => { w with diagnostics := w.diagnostics ++ ["Failed to parse Y Length string"] }
  | some newLength =>
    emitDataPropertiesChanged (updateData kit (updateSpacing kit 1 newLength w))

/-- Method `DataPropertiesPanel::updateZLength`. -/
def updateZLength (kit : Toolkit R) (w : World R) : World R :=
  let text := w.panel.zLengthBox
  match kit.toDouble text with
  | none => { w with diagnostics := w.diagnostics ++ ["Failed to parse Z Length string"] }
  | some newLength =>
    emitDataPropertiesChanged (updateData kit (updateSpacing kit 2 newLength w))

/-- The length field of an axis. -/
def lengthBox (p : Panel) (axis : Fin 3) : String :=
  match axis with
  | 0 => p.xLengthBox
  | 1 => p.yLengthBox
  | 2 => p.zLengthBox

/-- The `editingFinished` slot of the length field of an axis. -/
def updateLength (kit : Toolkit R) (axis : Fin 3) (w : World R) : World R :=
  match axis with
  | 0 => updateXLength kit w
  | 1 => updateYLength kit w
  | 2 => updateZLength kit w

end Slots

/-! ## Construction and events -/

section Events

variable {R : Type}

/-- The connections the constructor makes (the two `portChanged` connections of
the information widgets are removed by it and are absent). -/
def constructorConnections : List Connection :=
  [ ⟨Obj.activeObjects, Signal.dataSourceChanged, Obj.panel, Slot.setDataSource⟩,
    ⟨Obj.activeObjects, Signal.dataSourceChanged, Obj.panel, Slot.updateAxesGridLabels⟩,
    ⟨Obj.activeObjects, Signal.viewChanged, Obj.panel, Slot.updateAxesGridLabels⟩,
    ⟨Obj.setTiltAnglesButton, Signal.clicked, Obj.panel, Slot.setTiltAngles⟩,
    ⟨Obj.unitBox, Signal.editingFinished, Obj.panel, Slot.updateUnits⟩,
    ⟨Obj.xLengthBox, Signal.editingFinished, Obj.panel, Slot.updateXLength⟩,
    ⟨Obj.yLengthBox, Signal.editingFinished, Obj.panel, Slot.updateYLength⟩,
    ⟨Obj.zLengthBox, Signal.editingFinished, Obj.panel, Slot.updateZLength⟩ ]

/-- The panel right after `setupUi`, before the constructor calls `clear`: no
data source and a refresh pending (the member initialisers are in
DataPropertiesPanel.h, which is not among the sources; a null data source and
a pending refresh are taken as the initial values), not yet shown, all fields
empty. -/
def freshPanel : Panel :=
  { m_currentDataSource := none
    m_updateNeeded := true
    visible := false
    xLengthBox := ""
    yLengthBox := ""
    zLengthBox := ""
    unitBox := ""
    tiltAnglesSeparatorShown := true
    setTiltAnglesButtonShown := true
    tiltAnglesTableShown := true
    tiltAnglesTable := ⟨0, 0, fun _ _ => none⟩
    originalPort := none
    transformedPort := none }

/-- The world right after the constructor of `DataPropertiesPanel` has run, in
an application holding the given data sources, active view and active data
source. -/
def construct (sources : Nat → DataSource R) (activeView : Option View)
    (activeDataSource : Option Nat) : World R :=
  clear
    { panel := freshPanel
      sources := sources
      connections := constructorConnections
      pipelineSources := []
      deleted := []
      activeView := activeView
      activeDataSource := activeDataSource
      emitted := []
      diagnostics := [] }

/-- Store a text in the length field of an axis. -/
def setLengthBox (p : Panel) (axis : Fin 3) (text : String) : Panel :=
  match axis with
  | 0 => { p with xLengthBox := text }
  | 1 => { p with yLengthBox := text }
  | 2 => { p with zLengthBox := text }

end Events

/-! ## A sample toolkit for evaluating examples

Fixed-point numbers with three decimals and decimal texts stand in for `double`
and the Qt conversions when an example is evaluated. -/

/-- A number with three decimals, kept as its count of thousandths. -/
structure Fixed where
  thousandths : Int
deriving DecidableEq

/-- The value of a decimal digit. -/
def digitValue (c : Char) : Option Nat :=
  if 48 ≤ c.toNat ∧ c.toNat ≤ 57 then some (c.toNat - 48) else none

/-- The value of a non-empty run of decimal digits. -/
def digitsValue (cs : List Char) : Option Nat :=
  match cs with
  | [] => none
  | _ => cs.foldlM (fun acc c => (digitValue c).map (fun d => 10 * acc + d)) 0

/-- The value of an unsigned decimal text, `digits` or `digits.digits`, in
thousandths; digits after the third decimal are dropped. -/
def decimalValue (cs : List Char) : Option Nat :=
  let whole := cs.takeWhile (fun c => c ≠ '.')
  match cs.dropWhile (fun c => c ≠ '.') with
  | [] => (digitsValue whole).map (fun n => 1000 * n)
  | _ :: frac =>
    match digitsValue whole, digitsValue frac with
    | some a, some _ =>
      (digitsValue ((frac ++ ['0', '0', '0']).take 3)).map (fun b => 1000 * a + b)
    | _, _ => none

/-- Sample text-to-number conversion: an optional minus sign and a decimal text. -/
def sampleToDouble (s : String) : Option Fixed :=
  match s.toList with
  | '-' :: cs => (decimalValue cs).map (fun n => ⟨-(n : Int)⟩)
  | cs => (decimalValue cs).map (fun n => ⟨(n : Int)⟩)

/-- The digits after the decimal point of `r / d`, at most `fuel` of them. -/
def fractionDigits (fuel r d : Nat) : List Char :=
  match fuel with
  | 0 => []
  | k + 1 => if r = 0 then [] else Char.ofNat (48 + 10 * r / d) :: fractionDigits k (10 * r % d) d

/-- Sample number-to-text conversion: the decimal expansion without trailing
zeros. -/
def sampleNumber (q : Fixed) : String :=
  let n := q.thousandths.natAbs
  let sign := if q.thousandths < 0 then "-" else ""
  let frac := fractionDigits 3 (n % 1000) 1000
  sign ++ toString (n / 1000) ++ (if frac.isEmpty then "" else "." ++ String.mk frac)

/-- The sample toolkit: three-decimal numbers, decimal texts, an empty array in
a new operator, and a write outside an array that leaves it as it is. -/
def sampleKit : Toolkit Fixed :=
  { toDouble := sampleToDouble
    number := sampleNumber
    arg := sampleNumber
    ofInt := fun n => ⟨1000 * n⟩
    mul := fun a b => ⟨a.thousandths * b.thousandths / 1000⟩
    div := fun a b => ⟨a.thousandths * 1000 / b.thousandths⟩
    newTiltAngles := fun _ => []
    writeOutside := fun angles _ _ => angles }

/-- A tilt series of three projections at 0, 5 and 10 degrees, 10 x 20 x 3
voxels of size 1, in millimetres, with an empty operator history. -/
def tiltSource : DataSource Fixed :=
  { extent := ⟨0, 9, 0, 19, 0, 2⟩
    spacing := ⟨⟨1000⟩, ⟨1000⟩, ⟨1000⟩⟩
    units := ⟨"mm", "mm", "mm"⟩
    type := DataSourceType.TiltSeries
    tiltAngles := [⟨0⟩, ⟨5000⟩, ⟨10000⟩]
    operators := [] }

/-- A volume that is not a tilt series, 4 x 4 x 4 voxels, with different units
on the three axes. -/
def volumeSource : DataSource Fixed :=
  { extent := ⟨0, 3, 0, 3, 0, 3⟩
    spacing := ⟨⟨2000⟩, ⟨2000⟩, ⟨2000⟩⟩
    units := ⟨"um", "mm", "m"⟩
    type := DataSourceType.Other
    tiltAngles := []
    operators := [Operator.other "crop"] }

/-- The sample application: data source 0 is `tiltSource`, every other address
holds `volumeSource`. -/
def sampleSources : Nat → DataSource Fixed :=
  fun i => if i = 0 then tiltSource else volumeSource

/-- A view with an axes grid and a `pqView`. -/
def sampleView : View :=
  { axesGrid := some ⟨"X", "Y", "Z", 0⟩, hasQtView := true, renders := 0 }

/-- The constructed panel of the sample application, hidden. -/
def hiddenWorld : World Fixed :=
  construct sampleSources (some sampleView) (some 0)

/-- The constructed panel of the sample application, shown. -/
def shownWorld : World Fixed :=
  { hiddenWorld with panel := { hiddenWorld.panel with visible := true } }

/-- The shown panel after `setDataSource` with the tilt series. -/
def tiltWorld : World Fixed :=
  setDataSource sampleKit (some 0) shownWorld

/-- The world `tiltWorld` after the user typed "7.5" into row 1 of the table. -/
def editedWorld : World Fixed :=
  { tiltWorld with panel := { tiltWorld.panel with
      tiltAnglesTable := tiltWorld.panel.tiltAnglesTable.setItem 1 0 "7.5" } }

/-- The world `tiltWorld` after the user typed "30" into the X length field. -/
def lengthWorld : World Fixed :=
  { tiltWorld with panel := setLengthBox tiltWorld.panel 0 "30" }

/-! ## Names used in the statements -/

section StatementNames

variable {R : Type}

/-- The operator history a tilt-angle edit leaves: the last entry rewritten when
an operator was found for reuse, a new entry appended otherwise. -/
def editedOperators (kit : Toolkit R) (ds : DataSource R) (row : Nat) (v : R) :
    List (Operator R) :=
  match reusableOperator ds.operators with
  | some a => ds.operators.dropLast ++ [Operator.setTiltAngles (assignAngle kit a row v)]
  | none =>
    ds.operators ++ [Operator.setTiltAngles (assignAngle kit (kit.newTiltAngles ds) row v)]

/-- The world with the operator history of data source `d` replaced. -/
def setOperators (w : World R) (d : Nat) (ops : List (Operator R)) : World R :=
  { w with sources := Function.update w.sources d { w.sources d with operators := ops } }

/-- The world `editedWorld` when the history of the tilt series already ends in
a tilt-angle operator holding the angles 0, 5 and 10. -/
def reuseWorld : World Fixed :=
  setOperators editedWorld 0
    [Operator.other "crop", Operator.setTiltAngles [⟨0⟩, ⟨5000⟩, ⟨10000⟩]]

/-- The hidden panel after `setDataSource` with the tilt series: the refresh is
still pending. -/
def pendingTiltWorld : World Fixed :=
  setDataSource sampleKit (some 0) hiddenWorld

/-- The shown panel after `setDataSource` with the tilt series and then with the
volume at address 1. -/
def switchedWorld : World Fixed :=
  setDataSource sampleKit (some 1) tiltWorld

/-- The shown panel after `setDataSource` with the tilt series and then with no
data source. -/
def unsetWorld : World Fixed :=
  setDataSource sampleKit none tiltWorld

/-- The world `editedWorld` when the history of the tilt series ends in a
tilt-angle operator holding 1, 5, 10 while the data source holds 0, 5, 10. -/
def mismatchedWorld : World Fixed :=
  setOperators editedWorld 0 [Operator.setTiltAngles [⟨1000⟩, ⟨5000⟩, ⟨10000⟩]]

end StatementNames

/-! ## Frame lemmas -/

section Frame

variable {R : Type}

theorem updateData_sources (kit : Toolkit R) (w : World R) :
    (updateData kit w).sources = w.sources := by
  unfold updateData
  split
  · rfl
  · simp only [clear]
    split <;> rfl

theorem updateData_current (kit : Toolkit R) (w : World R) :
    (updateData kit w).panel.m_currentDataSource = w.panel.m_currentDataSource := by
  unfold updateData
  split
  · rfl
  · simp only [clear]
    split
    · rfl
    · rename_i d hd
      split <;> simp [hd]

theorem updateData_emitted (kit : Toolkit R) (w : World R) :
    (updateData kit w).emitted = w.emitted := by
  unfold updateData
  split
  · rfl
  · simp only [clear]
    split <;> rfl

theorem updateSpacing_current (kit : Toolkit R) (axis : Fin 3) (L : R) (w : World R) :
    (updateSpacing kit axis L w).panel.m_currentDataSource = w.panel.m_currentDataSource := by
  unfold updateSpacing
  split <;> rfl

theorem updateSpacing_emitted (kit : Toolkit R) (axis : Fin 3) (L : R) (w : World R) :
    (updateSpacing kit axis L w).emitted = w.emitted := by
  unfold updateSpacing
  split <;> rfl

theorem emitDataPropertiesChanged_sources (w : World R) :
    (emitDataPropertiesChanged w).sources = w.sources := by
  unfold emitDataPropertiesChanged
  split <;> rfl

/-- What a length edit does once its text has parsed: spacing update, refresh,
notification. -/
theorem updateLength_parsed (kit : Toolkit R) (axis : Fin 3) (w : World R) (L : R)
    (hparse : kit.toDouble (lengthBox w.panel axis) = some L) :
    updateLength kit axis w =
      emitDataPropertiesChanged (updateData kit (updateSpacing kit axis L w)) := by
  fin_cases axis
  · simp only [lengthBox] at hparse
    simp [updateLength, updateXLength, hparse]
  · simp only [lengthBox] at hparse
    simp [updateLength, updateYLength, hparse]
  · simp only [lengthBox] at hparse
    simp [updateLength, updateZLength, hparse]

/-- What a length edit does when its text does not parse: only a diagnostic is
written. -/
theorem updateLength_unparsed (kit : Toolkit R) (axis : Fin 3) (w : World R)
    (hparse : kit.toDouble (lengthBox w.panel axis) = none) :
    ∃ msg : String, updateLength kit axis w = { w with diagnostics := w.diagnostics ++ [msg] } := by
  fin_cases axis
  · simp only [lengthBox] at hparse
    exact ⟨"Failed to parse X Length string", by simp [updateLength, updateXLength, hparse]⟩
  · simp only [lengthBox] at hparse
    exact ⟨"Failed to parse Y Length string", by simp [updateLength, updateYLength, hparse]⟩
  · simp only [lengthBox] at hparse
    exact ⟨"Failed to parse Z Length string", by simp [updateLength, updateZLength, hparse]⟩

theorem Vec3.get_set_same {α : Type} (v : Vec3 α) (i : Fin 3) (a : α) :
    (v.set i a).get i = a := by
  fin_cases i <;> rfl

theorem Vec3.get_set_other {α : Type} (v : Vec3 α) (i j : Fin 3) (a : α) (h : j ≠ i) :
    (v.set i a).get j = v.get j := by
  fin_cases i <;> fin_cases j <;> first | rfl | exact absurd rfl h

theorem reusableOperator_of_last (ops : List (Operator R)) (a : List R)
    (h : ops.getLast? = some (Operator.setTiltAngles a)) : reusableOperator ops = some a := by
  unfold reusableOperator
  cases ops with
  | nil => simp at h
  | cons o rest => simp [h, Operator.asSetTiltAngles]

theorem reusableOperator_of_not_last (ops : List (Operator R))
    (h : ∀ a, ops.getLast? ≠ some (Operator.setTiltAngles a)) : reusableOperator ops = none := by
  unfold reusableOperator
  split
  · cases hl : ops.getLast? with
    | none => rfl
    | some o =>
      cases o with
      | setTiltAngles a => exact absurd hl (h a)
      | other l => rfl
  · rfl

theorem reusableOperator_some (ops : List (Operator R)) (a : List R)
    (h : reusableOperator ops = some a) : ops.getLast? = some (Operator.setTiltAngles a) := by
  unfold reusableOperator at h
  split at h
  · cases hl : ops.getLast? with
    | none => simp [hl] at h
    | some o =>
      cases o with
      | setTiltAngles b =>
        simp [hl, Operator.asSetTiltAngles] at h
        rw [h]
      | other l => simp [hl, Operator.asSetTiltAngles] at h
  · simp at h

/-- The outcome of a tilt-angle edit whose text parses. -/
theorem onTiltAnglesModified_parsed (kit : Toolkit R) (row column : Nat) (w : World R)
    (d : Nat) (text : String) (v : R)
    (hcur : w.panel.m_currentDataSource = some d)
    (htype : (w.sources d).type = DataSourceType.TiltSeries)
    (hitem : w.panel.tiltAnglesTable.item row column = some text)
    (hparse : kit.toDouble text = some v) :
    onTiltAnglesModified kit row column w =
      some (setOperators w d (editedOperators kit (w.sources d) row v)) := by
  unfold onTiltAnglesModified editedOperators setOperators
  simp only [hcur, hitem, hparse]
  rw [if_neg (not_not.mpr htype)]
  cases reusableOperator (w.sources d).operators <;> rfl

/-- The outcome of a tilt-angle edit whose text does not parse. -/
theorem onTiltAnglesModified_unparsed (kit : Toolkit R) (row column : Nat) (w : World R)
    (d : Nat) (text : String)
    (hcur : w.panel.m_currentDataSource = some d)
    (htype : (w.sources d).type = DataSourceType.TiltSeries)
    (hitem : w.panel.tiltAnglesTable.item row column = some text)
    (hparse : kit.toDouble text = none) :
    onTiltAnglesModified kit row column w =
      some { w with diagnostics := w.diagnostics ++ ["Invalid tilt angle."] } := by
  unfold onTiltAnglesModified
  simp only [hcur, hitem, hparse]
  rw [if_neg (not_not.mpr htype)]

theorem editedOperators_getLast (kit : Toolkit R) (ds : DataSource R) (row : Nat) (v : R) :
    ∃ angles, (editedOperators kit ds row v).getLast? = some (Operator.setTiltAngles angles) := by
  unfold editedOperators
  cases reusableOperator ds.operators with
  | none => exact ⟨_, List.getLast?_concat _⟩
  | some a => exact ⟨_, List.getLast?_concat _⟩

theorem editedOperators_reuse (kit : Toolkit R) (ds : DataSource R) (row : Nat) (v : R)
    (a : List R) (h : ds.operators.getLast? = some (Operator.setTiltAngles a)) :
    editedOperators kit ds row v
      = ds.operators.dropLast ++ [Operator.setTiltAngles (assignAngle kit a row v)] := by
  unfold editedOperators
  rw [reusableOperator_of_last ds.operators a h]

theorem editedOperators_new (kit : Toolkit R) (ds : DataSource R) (row : Nat) (v : R)
    (h : ∀ a, ds.operators.getLast? ≠ some (Operator.setTiltAngles a)) :
    editedOperators kit ds row v
      = ds.operators
        ++ [Operator.setTiltAngles (assignAngle kit (kit.newTiltAngles ds) row v)] := by
  unfold editedOperators
  rw [reusableOperator_of_not_last ds.operators h]

theorem length_dropLast_concat {α : Type} (l : List α) (x y : α) (h : l.getLast? = some x) :
    (l.dropLast ++ [y]).length = l.length := by
  cases l with
  | nil => simp at h
  | cons a rest => simp

/-- Two arrays with the same position overwritten are equal exactly when they
have the same length and agree at every other position. -/
theorem set_eq_set_iff {α : Type} (written A : List α) (row : Nat) (v : α)
    (hrow : row < written.length) :
    written.set row v = A.set row v ↔
      written.length = A.length ∧ ∀ i, i ≠ row → written[i]? = A[i]? := by
  constructor
  · intro h
    refine ⟨by simpa using congrArg List.length h, ?_⟩
    intro i hi
    have h1 := congrArg (fun l => l[i]?) h
    simp only [List.getElem?_set_ne (Ne.symm hi)] at h1
    exact h1
  · rintro ⟨hlen, hoff⟩
    apply List.ext_getElem?
    intro i
    by_cases hi : i = row
    · subst hi
      rw [List.getElem?_set_eq_of_lt _ hrow, List.getElem?_set_eq_of_lt _ (hlen ▸ hrow)]
    · rw [List.getElem?_set_ne (Ne.symm hi), List.getElem?_set_ne (Ne.symm hi)]
      exact hoff i hi

theorem setOperators_operators (w : World R) (d : Nat) (ops : List (Operator R)) :
    ((setOperators w d ops).sources d).operators = ops := by
  simp [setOperators]

theorem setOperators_type (w : World R) (d : Nat) (ops : List (Operator R)) :
    ((setOperators w d ops).sources d).type = (w.sources d).type := by
  simp [setOperators]

theorem setOperators_tiltAngles (w : World R) (d : Nat) (ops : List (Operator R)) :
    ((setOperators w d ops).sources d).tiltAngles = (w.sources d).tiltAngles := by
  simp [setOperators]

theorem setOperators_other (w : World R) (d e : Nat) (ops : List (Operator R)) (h : e ≠ d) :
    (setOperators w d ops).sources e = w.sources e := by
  simp [setOperators, Function.update_noteq h]

theorem fillRows_rowCount (kit : Toolkit R) (angles : List R) (k : Nat) (t : TableWidget) :
    (fillRows kit angles k t).rowCount = t.rowCount := by
  induction angles generalizing k t with
  | nil => rfl
  | cons a rest ih =>
    simp only [fillRows]
    rw [ih]
    unfold TableWidget.setItem
    split <;> rfl

theorem fillRows_columnCount (kit : Toolkit R) (angles : List R) (k : Nat) (t : TableWidget) :
    (fillRows kit angles k t).columnCount = t.columnCount := by
  induction angles generalizing k t with
  | nil => rfl
  | cons a rest ih =>
    simp only [fillRows]
    rw [ih]
    unfold TableWidget.setItem
    split <;> rfl

/-- The items of column 0 after the filling loop has run over `angles` from row
`k` on: rows `k`, `k + 1`, ... hold the texts of the angles in order, every other
row is as before. -/
theorem fillRows_items (kit : Toolkit R) (angles : List R) (k : Nat) (t : TableWidget)
    (hcol : 0 < t.columnCount) (hrow : k + angles.length ≤ t.rowCount) (i : Nat) :
    (fillRows kit angles k t).items i 0 =
      if i < k then t.items i 0
      else match angles[i - k]? with
        | some a => some (kit.number a)
        | none => t.items i 0 := by
  induction angles generalizing k t with
  | nil => simp [fillRows]
  | cons a rest ih =>
    simp only [List.length_cons] at hrow
    have hk : k < t.rowCount := by omega
    have hset : t.setItem k 0 (kit.number a) =
        { t with items := fun r c => if r = k ∧ c = 0 then some (kit.number a) else t.items r c } := by
      unfold TableWidget.setItem
      rw [if_pos ⟨hk, hcol⟩]
    simp only [fillRows]
    rw [ih (k + 1) _ (by rw [hset]; exact hcol) (by rw [hset]; simp only []; omega), hset]
    simp only []
    by_cases h1 : i < k
    · have h2 : i < k + 1 := by omega
      have h3 : i ≠ k := by omega
      simp [h1, h2, h3]
    · by_cases h4 : i = k
      · subst h4
        simp
      · have h5 : ¬ i < k + 1 := by omega
        have h6 : i - k = (i - (k + 1)) + 1 := by omega
        simp only [h1, h5, if_false, h4, false_and]
        rw [h6, List.getElem?_cons_succ]

theorem updateData_flag_of_source (kit : Toolkit R) (w : World R) (d : Nat)
    (hflag : w.panel.m_updateNeeded = true) (hcur : w.panel.m_currentDataSource = some d) :
    (updateData kit w).panel.m_updateNeeded = false := by
  simp [updateData, hflag, clear, hcur]

theorem updateData_flag_of_no_source (kit : Toolkit R) (w : World R)
    (hflag : w.panel.m_updateNeeded = true) (hcur : w.panel.m_currentDataSource = none) :
    (updateData kit w).panel.m_updateNeeded = true := by
  simp [updateData, hflag, clear, hcur]

end Frame

/-! ## Claims -/

section Claims

variable {R : Type}

/-- C1: editing the length field of an axis to a text that parses to `L`, while
a data source is current and its size on that axis is non-zero, writes back a
spacing whose component for that axis is `L / (extentMax - extentMin + 1)`
computed from the current extent and whose other two components are the
previous ones; the extent is unchanged. -/
theorem C1_length_edit_sets_axis_spacing (kit : Toolkit R) (axis : Fin 3) (w : World R)
    (d : Nat) (L : R)
    (hcur : w.panel.m_currentDataSource = some d)
    (hparse : kit.toDouble (lengthBox w.panel axis) = some L)
    (_hsize : axisCount (w.sources d).extent axis ≠ 0) :
    ((updateLength kit axis w).sources d).spacing.get axis
        = kit.div L (kit.ofInt (axisCount (w.sources d).extent axis))
      ∧ (∀ other : Fin 3, other ≠ axis →
          ((updateLength kit axis w).sources d).spacing.get other
            = (w.sources d).spacing.get other)
      ∧ ((updateLength kit axis w).sources d).extent = (w.sources d).extent
      ∧ (-2147483648 ≤ (w.sources d).extent.get (2 * axis.val + 1)
            - (w.sources d).extent.get (2 * axis.val) →
          (w.sources d).extent.get (2 * axis.val + 1)
            - (w.sources d).extent.get (2 * axis.val) + 1 ≤ 2147483647 →
          axisCount (w.sources d).extent axis
            = (w.sources d).extent.get (2 * axis.val + 1)
              - (w.sources d).extent.get (2 * axis.val) + 1) := by
  rw [updateLength_parsed kit axis w L hparse, emitDataPropertiesChanged_sources,
    updateData_sources]
  simp only [updateSpacing, hcur, Function.update_same, DataSource.setSpacing]
  refine ⟨Vec3.get_set_same _ _ _, fun other h => Vec3.get_set_other _ _ _ _ h, trivial, ?_⟩
  intro h1 h2
  unfold axisCount wrapInt
  omega

/-- C1 at the sample panel: with extent 0..9 on X, typing "30" into the X length
field sets the X spacing to 3 and keeps the other two. -/
theorem C1_length_edit_witness :
    ((updateLength sampleKit 0 lengthWorld).sources 0).spacing.get 0 = ⟨3000⟩
      ∧ (∀ other : Fin 3, other ≠ 0 →
          ((updateLength sampleKit 0 lengthWorld).sources 0).spacing.get other
            = (lengthWorld.sources 0).spacing.get other) :=
  have h := C1_length_edit_sets_axis_spacing sampleKit 0 lengthWorld 0 ⟨30000⟩
    (by decide) (by decide) (by decide)
  ⟨h.1.trans (by decide), h.2.1⟩

/-- C2: a length edit whose text does not parse leaves every data source (so the
spacing) as it is and emits nothing; `dataPropertiesChanged` is emitted, once
and by the current data source, exactly when the text parses and a data source
is current. -/
theorem C2_length_edit_notification (kit : Toolkit R) (axis : Fin 3) (w : World R) :
    (kit.toDouble (lengthBox w.panel axis) = none →
        (updateLength kit axis w).sources = w.sources
          ∧ (updateLength kit axis w).emitted = w.emitted)
      ∧ (updateLength kit axis w).emitted =
          (match kit.toDouble (lengthBox w.panel axis), w.panel.m_currentDataSource with
            | some _, some d => w.emitted ++ [(d, Signal.dataPropertiesChanged)]
            | _, _ => w.emitted)
      ∧ ((updateLength kit axis w).emitted ≠ w.emitted ↔
          (kit.toDouble (lengthBox w.panel axis)).isSome
            ∧ w.panel.m_currentDataSource.isSome) := by
  have key : (updateLength kit axis w).emitted =
      (match kit.toDouble (lengthBox w.panel axis), w.panel.m_currentDataSource with
        | some _, some d => w.emitted ++ [(d, Signal.dataPropertiesChanged)]
        | _, _ => w.emitted) := by
    cases hp : kit.toDouble (lengthBox w.panel axis) with
    | none =>
      obtain ⟨msg, hmsg⟩ := updateLength_unparsed kit axis w hp
      rw [hmsg]
    | some L =>
      rw [updateLength_parsed kit axis w L hp]
      have hc : (updateData kit (updateSpacing kit axis L w)).panel.m_currentDataSource
          = w.panel.m_currentDataSource := by
        rw [updateData_current, updateSpacing_current]
      cases hw : w.panel.m_currentDataSource with
      | none =>
        rw [hw] at hc
        simp only [emitDataPropertiesChanged, hc, updateData_emitted, updateSpacing_emitted]
      | some d =>
        rw [hw] at hc
        simp only [emitDataPropertiesChanged, hc, updateData_emitted, updateSpacing_emitted]
  refine ⟨?_, key, ?_⟩
  · intro hp
    obtain ⟨msg, hmsg⟩ := updateLength_unparsed kit axis w hp
    rw [hmsg]
    exact ⟨rfl, rfl⟩
  · rw [key]
    cases kit.toDouble (lengthBox w.panel axis) <;>
      cases w.panel.m_currentDataSource <;> simp

/-- C3: for a tilt-series data source, a cell edit whose text parses appends
exactly one new tilt-angle operator when the history is empty or does not end in
a tilt-angle operator (every earlier entry, tilt-angle operators included, stays
as it was), and rewrites the last entry in place, appending nothing, when the
history ends in one; after either, a further parsing edit appends nothing.  An
edit whose text does not parse leaves every data source as it was. -/
theorem C3_tilt_edit_history (kit : Toolkit R) (row column : Nat) (w : World R) (d : Nat)
    (text : String)
    (hcur : w.panel.m_currentDataSource = some d)
    (htype : (w.sources d).type = DataSourceType.TiltSeries)
    (hitem : w.panel.tiltAnglesTable.item row column = some text) :
    (∀ v, kit.toDouble text = some v →
      ∃ w1, onTiltAnglesModified kit row column w = some w1
        ∧ ((∀ a, (w.sources d).operators.getLast? ≠ some (Operator.setTiltAngles a)) →
            (w1.sources d).operators = (w.sources d).operators
              ++ [Operator.setTiltAngles
                (assignAngle kit (kit.newTiltAngles (w.sources d)) row v)])
        ∧ (∀ a, (w.sources d).operators.getLast? = some (Operator.setTiltAngles a) →
            (w1.sources d).operators = (w.sources d).operators.dropLast
                ++ [Operator.setTiltAngles (assignAngle kit a row v)]
              ∧ (w1.sources d).operators.length = (w.sources d).operators.length)
        ∧ (∀ e, e ≠ d → w1.sources e = w.sources e)
        ∧ (∀ row2 column2 text2 v2,
            w1.panel.tiltAnglesTable.item row2 column2 = some text2 →
            kit.toDouble text2 = some v2 →
            ∃ w2, onTiltAnglesModified kit row2 column2 w1 = some w2
              ∧ (w2.sources d).operators.length = (w1.sources d).operators.length
              ∧ (w2.sources d).operators.dropLast = (w1.sources d).operators.dropLast))
      ∧ (kit.toDouble text = none →
          ∃ w1, onTiltAnglesModified kit row column w = some w1 ∧ w1.sources = w.sources) := by
  constructor
  · intro v hv
    refine ⟨_, onTiltAnglesModified_parsed kit row column w d text v hcur htype hitem hv,
      ?_, ?_, ?_, ?_⟩
    · intro h
      rw [setOperators_operators, editedOperators_new kit _ row v h]
    · intro a h
      rw [setOperators_operators, editedOperators_reuse kit _ row v a h]
      exact ⟨rfl, length_dropLast_concat _ _ _ h⟩
    · intro e he
      exact setOperators_other w d e _ he
    · intro row2 column2 text2 v2 hitem2 hv2
      obtain ⟨b, hb⟩ := editedOperators_getLast kit (w.sources d) row v
      have hb1 : ((setOperators w d (editedOperators kit (w.sources d) row v)).sources
          d).operators.getLast? = some (Operator.setTiltAngles b) := by
        rw [setOperators_operators]
        exact hb
      have htype1 : ((setOperators w d (editedOperators kit (w.sources d) row v)).sources
          d).type = DataSourceType.TiltSeries := by
        rw [setOperators_type, htype]
      refine ⟨_, onTiltAnglesModified_parsed kit row2 column2 _ d text2 v2 hcur htype1 hitem2 hv2,
        ?_, ?_⟩
      · rw [setOperators_operators, editedOperators_reuse kit _ row2 v2 b hb1]
        exact length_dropLast_concat _ _ _ hb1
      · rw [setOperators_operators, editedOperators_reuse kit _ row2 v2 b hb1,
          List.dropLast_concat]
  · intro hv
    exact ⟨_, onTiltAnglesModified_unparsed kit row column w d text hcur htype hitem hv, rfl⟩

/-- C3 at the sample panel: with an empty history, typing "7.5" into row 1
appends one operator. -/
theorem C3_tilt_edit_witness :
    ∃ w1, onTiltAnglesModified sampleKit 1 0 editedWorld = some w1
      ∧ (w1.sources 0).operators.length = (editedWorld.sources 0).operators.length + 1 := by
  obtain ⟨w1, h1, hnew, _⟩ :=
    (C3_tilt_edit_history sampleKit 1 0 editedWorld 0 "7.5"
      (by decide) (by decide) (by decide)).1 ⟨7500⟩ (by decide)
  have h0 : (editedWorld.sources 0).operators = [] := by decide
  refine ⟨w1, h1, ?_⟩
  rw [hnew (fun a => by rw [h0]; simp)]
  simp

/-- C4, the claim as stated fails.  The tilt series holds the angles 0, 5, 10,
row 1 is within the list and "7.5" parses.  When its history ends in a
tilt-angle operator holding 1, 5, 10, the edit of row 1 leaves that operator
holding 1, 7.5, 10 and not 0, 7.5, 10, and no toolkit that parses "7.5" makes it
otherwise: the handler writes into the operator's array and never reads the
angle list of the data source.  When the history is empty, the array written is
the one of the operator just constructed; in the sample toolkit row 1 is not
within it and the operator does not hold 0, 7.5, 10 afterwards. -/
theorem C4_counterexample_operator_array :
    (mismatchedWorld.sources 0).type = DataSourceType.TiltSeries
      ∧ (mismatchedWorld.sources 0).tiltAngles = [⟨0⟩, ⟨5000⟩, ⟨10000⟩]
      ∧ (mismatchedWorld.sources 0).operators
          = [Operator.setTiltAngles [⟨1000⟩, ⟨5000⟩, ⟨10000⟩]]
      ∧ mismatchedWorld.panel.tiltAnglesTable.item 1 0 = some "7.5"
      ∧ sampleKit.toDouble "7.5" = some ⟨7500⟩
      ∧ (onTiltAnglesModified sampleKit 1 0 mismatchedWorld).map
          (fun w1 => (w1.sources 0).operators)
            = some [Operator.setTiltAngles [⟨1000⟩, ⟨7500⟩, ⟨10000⟩]]
      ∧ (¬ ∃ kit : Toolkit Fixed, kit.toDouble "7.5" = some ⟨7500⟩
          ∧ (onTiltAnglesModified kit 1 0 mismatchedWorld).map
              (fun w1 => (w1.sources 0).operators.getLast?)
                = some (some (Operator.setTiltAngles [⟨0⟩, ⟨7500⟩, ⟨10000⟩])))
      ∧ (editedWorld.sources 0).tiltAngles = [⟨0⟩, ⟨5000⟩, ⟨10000⟩]
      ∧ (editedWorld.sources 0).operators = []
      ∧ ¬ (1 < (sampleKit.newTiltAngles (editedWorld.sources 0)).length)
      ∧ (onTiltAnglesModified sampleKit 1 0 editedWorld).map
          (fun w1 => (w1.sources 0).operators)
            ≠ some [Operator.setTiltAngles [⟨0⟩, ⟨7500⟩, ⟨10000⟩]] := by
  refine ⟨by decide, by decide, by decide, by decide, by decide, by decide, ?_,
    by decide, by decide, by decide, by decide⟩
  rintro ⟨kit, hparse, h⟩
  have hops : (mismatchedWorld.sources 0).operators.getLast?
      = some (Operator.setTiltAngles [⟨1000⟩, ⟨5000⟩, ⟨10000⟩]) := by decide
  rw [onTiltAnglesModified_parsed kit 1 0 mismatchedWorld 0 "7.5" ⟨7500⟩
    (by decide) (by decide) (by decide) hparse] at h
  simp only [Option.map_some', setOperators_operators] at h
  rw [editedOperators_reuse kit _ 1 ⟨7500⟩ _ hops, List.getLast?_concat] at h
  have h1 : assignAngle kit [(⟨1000⟩ : Fixed), ⟨5000⟩, ⟨10000⟩] 1 ⟨7500⟩
      = [⟨1000⟩, ⟨7500⟩, ⟨10000⟩] := by
    simp [assignAngle]
  rw [h1] at h
  revert h
  decide

/-- C4 as amended: for a tilt-series data source with angle list `A` and a cell
text that parses to `v`, the edit succeeds and writes into the array `written`
of the operator it reuses (the last of the history, when that is a tilt-angle
operator) or of the operator it has just constructed.  When `row` is within
`written`, the last operator of the history afterwards holds `written` with
position `row` replaced by `v` and every other position unchanged; it holds `A`
with position `row` replaced exactly when `written` has the length of `A` and
agrees with `A` at every position other than `row`.  The angle list of the data
source is left as it was. -/
theorem C4_tilt_edit_writes_operator_array (kit : Toolkit R) (row column : Nat) (w : World R)
    (d : Nat) (text : String) (v : R)
    (hcur : w.panel.m_currentDataSource = some d)
    (htype : (w.sources d).type = DataSourceType.TiltSeries)
    (hitem : w.panel.tiltAnglesTable.item row column = some text)
    (hparse : kit.toDouble text = some v) :
    ∃ w1 written, onTiltAnglesModified kit row column w = some w1
      ∧ (∀ a, (w.sources d).operators.getLast? = some (Operator.setTiltAngles a) →
          written = a)
      ∧ ((∀ a, (w.sources d).operators.getLast? ≠ some (Operator.setTiltAngles a)) →
          written = kit.newTiltAngles (w.sources d))
      ∧ (row < written.length →
          (w1.sources d).operators.getLast?
              = some (Operator.setTiltAngles (written.set row v))
            ∧ (written.set row v).length = written.length
            ∧ (written.set row v)[row]? = some v
            ∧ (∀ i, i ≠ row → (written.set row v)[i]? = written[i]?)
            ∧ ((w1.sources d).operators.getLast?
                  = some (Operator.setTiltAngles ((w.sources d).tiltAngles.set row v))
                ↔ written.length = (w.sources d).tiltAngles.length
                  ∧ ∀ i, i ≠ row → written[i]? = (w.sources d).tiltAngles[i]?))
      ∧ (w1.sources d).tiltAngles = (w.sources d).tiltAngles := by
  have hlast : (editedOperators kit (w.sources d) row v).getLast?
      = some (Operator.setTiltAngles
          (assignAngle kit ((reusableOperator (w.sources d).operators).getD
            (kit.newTiltAngles (w.sources d))) row v)) := by
    unfold editedOperators
    cases reusableOperator (w.sources d).operators with
    | none => exact List.getLast?_concat _
    | some a => exact List.getLast?_concat _
  refine ⟨_, (reusableOperator (w.sources d).operators).getD (kit.newTiltAngles (w.sources d)),
    onTiltAnglesModified_parsed kit row column w d text v hcur htype hitem hparse,
    ?_, ?_, ?_, ?_⟩
  · intro a h
    rw [reusableOperator_of_last _ a h]
    rfl
  · intro h
    rw [reusableOperator_of_not_last _ h]
    rfl
  · intro hrow
    have hassign : assignAngle kit ((reusableOperator (w.sources d).operators).getD
        (kit.newTiltAngles (w.sources d))) row v
          = ((reusableOperator (w.sources d).operators).getD
              (kit.newTiltAngles (w.sources d))).set row v := by
      simp [assignAngle, hrow]
    rw [setOperators_operators, hlast, hassign]
    refine ⟨rfl, List.length_set _ _ _, List.getElem?_set_eq_of_lt _ hrow, ?_, ?_⟩
    · intro i hi
      exact List.getElem?_set_ne (Ne.symm hi)
    · rw [← set_eq_set_iff _ _ row v hrow]
      constructor
      · intro h
        simpa using h
      · intro h
        rw [h]
  · exact setOperators_tiltAngles w d _

/-- C4 as amended, at the sample panel: the history ends in a tilt-angle
operator holding 0, 5, 10, the angle list of the data source; typing "7.5" into
row 1 leaves it holding 0, 7.5, 10. -/
theorem C4_tilt_edit_witness :
    ∃ w1, onTiltAnglesModified sampleKit 1 0 reuseWorld = some w1
      ∧ (w1.sources 0).operators.getLast?
          = some (Operator.setTiltAngles [⟨0⟩, ⟨7500⟩, ⟨10000⟩]) := by
  obtain ⟨w1, written, h1, hreuse, _, hin, _⟩ :=
    C4_tilt_edit_writes_operator_array sampleKit 1 0 reuseWorld 0 "7.5" ⟨7500⟩
      (by decide) (by decide) (by decide) (by decide)
  have hw : written = [⟨0⟩, ⟨5000⟩, ⟨10000⟩] := hreuse _ (by decide)
  subst hw
  exact ⟨w1, h1, (hin (by decide)).1.trans (by decide)⟩

/-- C5: after a refresh that runs with the pending flag set, if the current data
source is a tilt series the separator, the button and the table are shown and
the table has one column and as many rows as there are tilt angles, row `i`
holding the display text of angle `i`; if it is not a tilt series, or there is
no current data source, the three widgets are hidden and the table has no rows,
whatever it held before. -/
theorem C5_refresh_tilt_table (kit : Toolkit R) (w : World R)
    (hflag : w.panel.m_updateNeeded = true) :
    (∀ d, w.panel.m_currentDataSource = some d →
        (w.sources d).type = DataSourceType.TiltSeries →
        (updateData kit w).panel.tiltAnglesSeparatorShown = true
          ∧ (updateData kit w).panel.setTiltAnglesButtonShown = true
          ∧ (updateData kit w).panel.tiltAnglesTableShown = true
          ∧ (updateData kit w).panel.tiltAnglesTable.rowCount = (w.sources d).tiltAngles.length
          ∧ (updateData kit w).panel.tiltAnglesTable.columnCount = 1
          ∧ ∀ i, (updateData kit w).panel.tiltAnglesTable.item i 0
              = ((w.sources d).tiltAngles[i]?).map kit.number)
      ∧ ((w.panel.m_currentDataSource = none
            ∨ ∃ d, w.panel.m_currentDataSource = some d
                ∧ (w.sources d).type ≠ DataSourceType.TiltSeries) →
          (updateData kit w).panel.tiltAnglesSeparatorShown = false
            ∧ (updateData kit w).panel.setTiltAnglesButtonShown = false
            ∧ (updateData kit w).panel.tiltAnglesTableShown = false
            ∧ (updateData kit w).panel.tiltAnglesTable.rowCount = 0) := by
  constructor
  · intro d hcur htype
    have hrows : ∀ t : TableWidget, (fillRows kit (w.sources d).tiltAngles 0
        ((t.setRowCount (w.sources d).tiltAngles.length).setColumnCount 1)).rowCount
          = (w.sources d).tiltAngles.length := by
      intro t
      rw [fillRows_rowCount]
      rfl
    have hcols : ∀ t : TableWidget, (fillRows kit (w.sources d).tiltAngles 0
        ((t.setRowCount (w.sources d).tiltAngles.length).setColumnCount 1)).columnCount = 1 := by
      intro t
      rw [fillRows_columnCount]
      rfl
    simp only [updateData, hflag, clear, hcur, htype, Bool.not_true, Bool.false_eq_true,
      if_false, if_true, true_and]
    refine ⟨hrows _, hcols _, ?_⟩
    intro i
    unfold TableWidget.item
    rw [hrows, hcols, fillRows_items kit _ 0 _ (by simp [TableWidget.setColumnCount])
      (by simp [TableWidget.setColumnCount, TableWidget.setRowCount])]
    by_cases hi : i < (w.sources d).tiltAngles.length
    · simp [hi, List.getElem?_eq_getElem hi]
    · have hnone : (w.sources d).tiltAngles[i]? = none := by
        rw [List.getElem?_eq_none_iff]
        omega
      simp [hi, hnone]
  · rintro (hcur | ⟨d, hcur, htype⟩)
    · simp [updateData, hflag, clear, hcur, TableWidget.setRowCount]
    · simp [updateData, hflag, clear, hcur, htype, TableWidget.setRowCount]

/-- C5 at the sample panel: the tilt series with angles 0, 5, 10 gives three rows
in one column, "0", "5" and "10". -/
theorem C5_refresh_witness :
    (updateData sampleKit pendingTiltWorld).panel.tiltAnglesTableShown = true
      ∧ (updateData sampleKit pendingTiltWorld).panel.tiltAnglesTable.rowCount = 3
      ∧ (updateData sampleKit pendingTiltWorld).panel.tiltAnglesTable.columnCount = 1
      ∧ (updateData sampleKit pendingTiltWorld).panel.tiltAnglesTable.item 0 0 = some "0"
      ∧ (updateData sampleKit pendingTiltWorld).panel.tiltAnglesTable.item 1 0 = some "5"
      ∧ (updateData sampleKit pendingTiltWorld).panel.tiltAnglesTable.item 2 0 = some "10" :=
  have h := (C5_refresh_tilt_table sampleKit pendingTiltWorld (by decide)).1 0
    (by decide) (by decide)
  ⟨h.2.2.1, h.2.2.2.1.trans (by decide), h.2.2.2.2.1,
    (h.2.2.2.2.2 0).trans (by decide), (h.2.2.2.2.2 1).trans (by decide),
    (h.2.2.2.2.2 2).trans (by decide)⟩

/-- C6, the code at two failing inputs.  After `setDataSource` with data source 0
and then with data source 1, the panel's `scheduleUpdate` is still connected to
`dataChanged` of data source 0 (the one-argument `disconnect` removed nothing),
next to the connection to data source 1; a `dataChanged` of data source 0 still
reaches the panel.  After `setDataSource` with data source 0 and then with no
data source, the transformed-data information widget is still bound to the port
of the pipeline source made for data source 0, which has been handed to
`deleteLater`; the original-data widget has been unbound. -/
theorem C6_stale_subscription_and_port :
    switchedWorld.panel.m_currentDataSource = some 1
      ∧ connectionCount (dataChangedConnection 0) switchedWorld.connections = 1
      ∧ connectionCount (dataChangedConnection 1) switchedWorld.connections = 1
      ∧ switchedWorld.pipelineSources
          = [⟨0, ProxyKind.originalDataSource⟩, ⟨0, ProxyKind.producer⟩,
              ⟨1, ProxyKind.originalDataSource⟩, ⟨1, ProxyKind.producer⟩]
      ∧ switchedWorld.deleted = [0, 1]
      ∧ switchedWorld.panel.originalPort = some 2
      ∧ switchedWorld.panel.transformedPort = some 3
      ∧ unsetWorld.panel.m_currentDataSource = none
      ∧ connectionCount (dataChangedConnection 0) unsetWorld.connections = 1
      ∧ unsetWorld.deleted = [0, 1]
      ∧ unsetWorld.panel.originalPort = none
      ∧ unsetWorld.panel.transformedPort = some 1 := by
  decide

/-- C8, the code at the failing input: a refresh that starts with the flag set
and no current data source returns with the flag still set, also when it is
reached through `scheduleUpdate` or `setDataSource` on a visible panel. -/
theorem C8_flag_stays_set_without_data_source :
    shownWorld.panel.m_updateNeeded = true
      ∧ shownWorld.panel.m_currentDataSource = none
      ∧ shownWorld.panel.visible = true
      ∧ (updateData sampleKit shownWorld).panel.m_updateNeeded = true
      ∧ (scheduleUpdate sampleKit shownWorld).panel.m_updateNeeded = true
      ∧ (setDataSource sampleKit none shownWorld).panel.m_updateNeeded = true
      ∧ (setDataSource sampleKit (some 0) shownWorld).panel.m_updateNeeded = false := by
  decide

end Claims

end Tomviz
